import Mathlib

/-!
Verification of the country-explorer browser client (`src/app.js`) against its
specification.  The client state (pagination globals, search dispatch, the
autocomplete matcher and the feedback capture flow) is embedded shallowly:
DOM reads become function arguments, DOM writes and alerts become explicit
result fields, and network requests become `Option`-valued outcomes supplied
by the environment.  The locale-aware string comparison used by
`localeCompare` is kept abstract as a boolean relation `lc` meaning
"compares less-or-equal".
-/

/-- Model of the JS `String.prototype.includes` check on character lists:
true when `pat` occurs as a contiguous run inside `l`. -/
def containsSub (pat : List Char) : List Char → Bool
  | [] => pat.isEmpty
  | c :: t => if pat.isPrefixOf (c :: t) then true else containsSub pat t

/-- Model of JS `s.includes(pat)`. -/
def jsIncludes (s pat : String) : Bool :=
  containsSub pat.data s.data

/-- Model of JS `s.trim()`: strip leading and trailing whitespace. -/
def jsTrim (s : String) : String :=
  ⟨((s.data.dropWhile Char.isWhitespace).reverse.dropWhile Char.isWhitespace).reverse⟩

/-- Model of JS `s.toLowerCase()`. -/
def jsToLower (s : String) : String :=
  ⟨s.data.map Char.toLower⟩

/-- A country record as used by the client: the fields the core logic reads
(`name.common` for sorting and matching, `cca2`, `capital`, `region`). -/
structure Country where
  nameCommon : String
  cca2 : String
  capital : List String
  region : String
deriving Repr, DecidableEq

/-- The sort comparator of `applyPagination` and `loadAllCountries`:
`(a, b) => a.name.common.localeCompare(b.name.common)`, read as a
less-or-equal test, with the environment's locale ordering `lc` abstract. -/
def nameLe (lc : String → String → Bool) (a b : Country) : Bool :=
  lc a.nameCommon b.nameCommon

/-- The pagination globals of `app.js`: `currentPage` and
`paginatedCountries`.  (`itemsPerPage` is declared `let` but never
reassigned, so it is modelled as the constant below.) -/
structure AppState where
  currentPage : Nat
  paginatedCountries : List Country
deriving Repr, DecidableEq

/-- `let itemsPerPage = 9;` — never reassigned. -/
def itemsPerPage : Nat := 9

/-- The initial values of the pagination globals:
`currentPage = 1`, `paginatedCountries = []`. -/
def initialState : AppState :=
  { currentPage := 1, paginatedCountries := [] }

/-- `applyPagination(countries)`: sort by common name with the locale
comparator, store as `paginatedCountries`, reset `currentPage` to 1.
(JS `Array.prototype.sort` is stable; `mergeSort` models it.) -/
def applyPagination (lc : String → String → Bool) (countries : List Country)
    (st : AppState) : AppState :=
  { st with paginatedCountries := countries.mergeSort (nameLe lc), currentPage := 1 }

/-- `Math.ceil(paginatedCountries.length / itemsPerPage)` as computed in
`nextPage()` and `updatePaginationControls()`. -/
def totalPages (st : AppState) : Nat :=
  (st.paginatedCountries.length + itemsPerPage - 1) / itemsPerPage

/-- `prevPage()`: decrement `currentPage` only when it is above 1. -/
def prevPage (st : AppState) : AppState :=
  if 1 < st.currentPage then { st with currentPage := st.currentPage - 1 } else st

/-- `nextPage()`: increment `currentPage` only when below `totalPages`. -/
def nextPage (st : AppState) : AppState :=
  if st.currentPage < totalPages st then { st with currentPage := st.currentPage + 1 } else st

/-- The five lookup kinds the dispatcher can invoke. -/
inductive LookupKind where
  | byName
  | byCode
  | byCapital
  | byRegion
  | all
deriving Repr, DecidableEq

/-- The dispatch decision of `searchCountries()`: the name, code and capital
inputs are read with `.value.trim()`, the region input with `.value`
(no trim), then the first non-empty one selects the lookup; with all empty,
`loadAllCountries()` (the `all` lookup) runs. -/
def searchCountries (nameInput codeInput capitalInput regionInput : String) : LookupKind :=
  let name := jsTrim nameInput
  let code := jsTrim codeInput
  let capital := jsTrim capitalInput
  let region := regionInput
  if name ≠ "" then LookupKind.byName
  else if code ≠ "" then LookupKind.byCode
  else if capital ≠ "" then LookupKind.byCapital
  else if region ≠ "" then LookupKind.byRegion
  else LookupKind.all

/-- First lookup kind in the list whose filter string is non-empty;
`all` when none is. -/
def firstNonEmptyKind : List (String × LookupKind) → LookupKind
  | [] => LookupKind.all
  | (s, k) :: rest => if s ≠ "" then k else firstNonEmptyKind rest

/-- Modelled from the spec's words (claim C1 as stated): the first filter, in
the order name, code, capital, region, that is non-empty *after trimming
whitespace* — trimming applied to all four inputs. -/
def dispatchClaimed (n c cap r : String) : LookupKind :=
  firstNonEmptyKind
    [(jsTrim n, LookupKind.byName), (jsTrim c, LookupKind.byCode),
     (jsTrim cap, LookupKind.byCapital), (jsTrim r, LookupKind.byRegion)]

/-- The amended dispatch rule: name, code and capital are compared after
trimming, region is compared as-is. -/
def dispatchAmended (n c cap r : String) : LookupKind :=
  firstNonEmptyKind
    [(jsTrim n, LookupKind.byName), (jsTrim c, LookupKind.byCode),
     (jsTrim cap, LookupKind.byCapital), (r, LookupKind.byRegion)]

/-- `searchByName`: on a resolved fetch, `applyPagination(data)`; on a
rejected fetch, `applyPagination([])` and no alert.  The second component is
the alert message shown, if any. -/
def searchByName (lc : String → String → Bool) (response : Option (List Country))
    (st : AppState) : AppState × Option String :=
  match response with
  | some data => (applyPagination lc data st, none)
  | none => (applyPagination lc [] st, none)

/-- `searchByCode`: on success, `applyPagination([data[0]])` (modelled as the
first element of the returned list); on failure, `alert("Invalid country
code!")` and no state change. -/
def searchByCode (lc : String → String → Bool) (response : Option (List Country))
    (st : AppState) : AppState × Option String :=
  match response with
  | some data => (applyPagination lc (data.take 1) st, none)
  | none => (st, some "Invalid country code!")

/-- `searchByCapital`: on success, `applyPagination(data)`; on failure,
`alert("No country with that capital!")` and no state change. -/
def searchByCapital (lc : String → String → Bool) (response : Option (List Country))
    (st : AppState) : AppState × Option String :=
  match response with
  | some data => (applyPagination lc data st, none)
  | none => (st, some "No country with that capital!")

/-- `searchByRegion`: on success, `applyPagination(data)`; on failure,
`alert("Region not found!")` and no state change. -/
def searchByRegion (lc : String → String → Bool) (response : Option (List Country))
    (st : AppState) : AppState × Option String :=
  match response with
  | some data => (applyPagination lc data st, none)
  | none => (st, some "Region not found!")

/-- Outcome of `showSuggestions`: the suggestion entities rendered and
whether the panel is displayed. -/
structure SuggestResult where
  suggestions : List Country
  panelVisible : Bool
deriving Repr, DecidableEq

/-- The autocomplete filter predicate:
`c.name.common.toLowerCase().includes(input.toLowerCase())`. -/
def matchPred (input : String) (c : Country) : Bool :=
  jsIncludes (jsToLower c.nameCommon) (jsToLower input)

/-- `showSuggestions(input)`: a falsy (empty) input hides the panel; otherwise
the catalog is filtered by the case-insensitive substring predicate and
truncated with `.slice(0, 5)`; an empty match list also hides the panel. -/
def showSuggestions (input : String) (catalog : List Country) : SuggestResult :=
  if input = "" then { suggestions := [], panelVisible := false }
  else
    let hits := (catalog.filter (matchPred input)).take 5
    if hits.isEmpty then { suggestions := [], panelVisible := false }
    else { suggestions := hits, panelVisible := true }

/-- The feedback-flow state: `selectedRating`, the comment box text, the
`#ratingText` description, the star spans, the success message visibility and
whether the modal is open. -/
structure FeedbackState where
  selectedRating : Nat
  feedbackText : String
  ratingText : String
  starsActive : List Bool
  successVisible : Bool
  modalOpen : Bool
deriving Repr, DecidableEq

/-- `setRating(rating)`: store the rating, activate exactly the first
`rating` stars, set the description text. -/
def setRating (r : Nat) (st : FeedbackState) : FeedbackState :=
  { st with
    selectedRating := r
    starsActive := (List.range st.starsActive.length).map (fun i => decide (i < r))
    ratingText := "You rated this " ++ toString r ++ " star" ++ (if 1 < r then "s" else "") }

/-- Outcome of one `submitFeedback()` call: the new state, the alert shown
(if any), the body of the POST request made (if any), and the delay of the
scheduled reset timer (if one was scheduled). -/
structure SubmitResult where
  state : FeedbackState
  alert : Option String
  remoteCall : Option (Nat × String)
  resetDelayMs : Option Nat
deriving Repr, DecidableEq

/-- `submitFeedback()`: validate rating and trimmed comment; on success POST
`(rating, comment)`, show the success message and schedule the 2000 ms
reset. -/
def submitFeedback (st : FeedbackState) : SubmitResult :=
  let feedback := jsTrim st.feedbackText
  if st.selectedRating = 0 then
    { state := st, alert := some "Please select a star rating.",
      remoteCall := none, resetDelayMs := none }
  else if feedback = "" then
    { state := st, alert := some "Please enter your feedback or query.",
      remoteCall := none, resetDelayMs := none }
  else
    { state := { st with successVisible := true },
      alert := none,
      remoteCall := some (st.selectedRating, feedback),
      resetDelayMs := some 2000 }

/-- The `.then`/`.catch` handlers of the feedback POST only log to the
console: the state is untouched whatever the outcome. -/
def feedbackFetchHandler (_succeeded : Bool) (st : FeedbackState) : FeedbackState :=
  st

/-- The `setTimeout` callback of `submitFeedback()`: clear the rating, the
comment text and the description, deactivate every star, hide the success
message, close the modal. -/
def feedbackResetCallback (st : FeedbackState) : FeedbackState :=
  { st with
    selectedRating := 0
    feedbackText := ""
    ratingText := ""
    starsActive := st.starsActive.map (fun _ => false)
    successVisible := false
    modalOpen := false }

/-- The pagination-cursor invariant of the spec:
`1 ≤ currentPage ≤ max 1 (ceil(|ResultSet| / pageSize))`. -/
def pageInvariant (st : AppState) : Prop :=
  1 ≤ st.currentPage ∧ st.currentPage ≤ max 1 (totalPages st)

instance pageInvariantDecidable (st : AppState) : Decidable (pageInvariant st) :=
  inferInstanceAs (Decidable (1 ≤ st.currentPage ∧ st.currentPage ≤ max 1 (totalPages st)))

/-- Sample catalog entities used to instantiate the theorems below. -/
def chad : Country := ⟨"Chad", "TD", ["Ndjamena"], "Africa"⟩

def chile : Country := ⟨"Chile", "CL", ["Santiago"], "Americas"⟩

def china : Country := ⟨"China", "CN", ["Beijing"], "Asia"⟩

def costaRica : Country := ⟨"Costa Rica", "CR", ["San Jose"], "Americas"⟩

/-- Sample locale ordering used to instantiate the comparator: lexicographic
order on the character lists. -/
def lcSample (s t : String) : Bool := decide (s.data ≤ t.data)

/-- Sample feedback states used to instantiate the feedback theorems. -/
def fbNoRating : FeedbackState :=
  ⟨0, "great", "", [false, false, false, false, false], false, true⟩

def fbNoComment : FeedbackState :=
  ⟨3, "   ", "You rated this 3 stars", [true, true, true, false, false], false, true⟩

def fbReady : FeedbackState :=
  ⟨3, "great", "You rated this 3 stars", [true, true, true, false, false], false, true⟩

/-- Claim C1 (amended): every dispatcher call invokes exactly one lookup —
the first, in the fixed order name, code, capital, region, whose input is
non-empty, where name, code and capital are compared after trimming
whitespace and the region input is compared untrimmed; if all are empty the
all() lookup runs. -/
theorem searchCountries_dispatch_order (n c cap r : String) :
    searchCountries n c cap r = dispatchAmended n c cap r := rfl

/-- Claim C1 counterexample: with name, code and capital empty and region a
single space, the code invokes the region lookup, while the claim as stated
(trimming applied to all four inputs) predicts the all() lookup. -/
theorem searchCountries_dispatch_counterexample :
    searchCountries "" "" "" " " = LookupKind.byRegion ∧
    dispatchClaimed "" "" "" " " = LookupKind.all := by decide

/-- Claim C5: a failed byCode lookup surfaces the blocking "Invalid country
code!" notice and leaves the Result Set and the pagination cursor exactly as
they were before the call. -/
theorem searchByCode_failure_frame (lc : String → String → Bool) (st : AppState) :
    searchByCode lc none st = (st, some "Invalid country code!") ∧
    (searchByCode lc none st).1.paginatedCountries = st.paginatedCountries ∧
    (searchByCode lc none st).1.currentPage = st.currentPage :=
  ⟨rfl, rfl, rfl⟩

/-- Claim C7 (amended): an empty prefixText yields no suggestions and hides
the suggestion panel, regardless of the catalog; a whitespace-only but
non-empty prefixText is instead processed as an ordinary substring query and
can produce suggestions. -/
theorem showSuggestions_empty_input (catalog : List Country) :
    showSuggestions "" catalog = { suggestions := [], panelVisible := false } :=
  rfl

/-- Claim C7 counterexample: on the single-space input and a catalog holding
"Costa Rica" (whose name contains a space), suggestions are produced and the
panel is shown, contradicting the claim for whitespace-only input. -/
theorem showSuggestions_whitespace_counterexample :
    (showSuggestions " " [costaRica]).suggestions = [costaRica] ∧
    (showSuggestions " " [costaRica]).panelVisible = true := by
  decide

/-- Claim C10: goPrevious and goNext never change the Result Set contents or
order; the only component they may modify is the cursor. -/
theorem pageNav_resultSet_frame (st : AppState) :
    (prevPage st).paginatedCountries = st.paginatedCountries ∧
    (nextPage st).paginatedCountries = st.paginatedCountries := by
  unfold prevPage nextPage
  constructor <;> (split <;> rfl)

/-- Claim C2: for any locale ordering that is transitive and total, the state
immediately after `applyPagination(entities)` has `currentPage = 1` and a
Result Set that is a permutation of `entities` sorted by common name under
that ordering. -/
theorem applyPagination_sorted_firstPage (lc : String → String → Bool)
    (htrans : ∀ x y z : String, lc x y = true → lc y z = true → lc x z = true)
    (htotal : ∀ x y : String, (lc x y || lc y x) = true)
    (l : List Country) (st : AppState) :
    (applyPagination lc l st).currentPage = 1 ∧
    (applyPagination lc l st).paginatedCountries.Perm l ∧
    List.Sorted (fun a b => nameLe lc a b = true) (applyPagination lc l st).paginatedCountries := by
  refine ⟨rfl, ?_, ?_⟩
  · exact List.mergeSort_perm l (nameLe lc)
  · show List.Pairwise (fun a b => nameLe lc a b = true) (l.mergeSort (nameLe lc))
    exact @List.sorted_mergeSort Country (nameLe lc)
      (fun a b c hab hbc => htrans _ _ _ hab hbc) (fun a b => htotal _ _) l

/-- Witness for claim C2 at the lexicographic character ordering and a
two-entity list. -/
theorem applyPagination_sorted_firstPage_witness :
    (applyPagination lcSample [chile, chad] initialState).currentPage = 1 ∧
    (applyPagination lcSample [chile, chad] initialState).paginatedCountries.Perm [chile, chad] ∧
    List.Sorted (fun a b => nameLe lcSample a b = true)
      (applyPagination lcSample [chile, chad] initialState).paginatedCountries :=
  applyPagination_sorted_firstPage lcSample
    (fun x y z hxy hyz => by
      simp only [lcSample, decide_eq_true_eq] at hxy hyz ⊢
      exact le_trans hxy hyz)
    (fun x y => by
      simp only [lcSample, Bool.or_eq_true, decide_eq_true_eq]
      exact le_total x.data y.data)
    [chile, chad] initialState

/-- Claim C3: the cursor invariant `1 ≤ currentPage ≤ max 1 totalPages` holds
in the initial state, is established by every replace, and is preserved by
goPrevious and goNext. -/
theorem pageInvariant_maintained :
    pageInvariant initialState ∧
    (∀ (lc : String → String → Bool) (l : List Country) (st : AppState),
      pageInvariant (applyPagination lc l st)) ∧
    (∀ st : AppState, pageInvariant st → pageInvariant (prevPage st)) ∧
    (∀ st : AppState, pageInvariant st → pageInvariant (nextPage st)) := by
  refine ⟨by decide, ?_, ?_, ?_⟩
  · intro lc l st
    exact ⟨le_refl 1, le_max_left 1 _⟩
  · intro st h
    obtain ⟨p, l⟩ := st
    simp only [pageInvariant, prevPage, totalPages, itemsPerPage] at h ⊢
    split
    all_goals simp_all
    all_goals omega
  · intro st h
    obtain ⟨p, l⟩ := st
    simp only [pageInvariant, nextPage, totalPages, itemsPerPage] at h ⊢
    split
    all_goals simp_all
    all_goals omega

/-- Witness for claim C3: the invariant is preserved from a concrete state
with one entity on page 1. -/
theorem pageInvariant_maintained_witness :
    pageInvariant { currentPage := 1, paginatedCountries := [chad] } ∧
    pageInvariant (prevPage { currentPage := 1, paginatedCountries := [chad] }) ∧
    pageInvariant (nextPage { currentPage := 1, paginatedCountries := [chad] }) :=
  ⟨by decide,
   pageInvariant_maintained.2.2.1 _ (by decide),
   pageInvariant_maintained.2.2.2 _ (by decide)⟩

/-- Claim C4 (amended): a failed byName lookup is silently mapped to the
empty Result Set (with the cursor reset to 1, no alert); failed byCapital and
byRegion lookups instead surface a blocking alert and leave the state — in
particular the previous Result Set — untouched. -/
theorem searchFailure_amended (lc : String → String → Bool) (st : AppState) :
    (searchByName lc none st).1.paginatedCountries = [] ∧
    (searchByName lc none st).1.currentPage = 1 ∧
    (searchByName lc none st).2 = none ∧
    searchByCapital lc none st = (st, some "No country with that capital!") ∧
    searchByRegion lc none st = (st, some "Region not found!") := by
  refine ⟨?_, rfl, rfl, rfl, rfl⟩
  show ([] : List Country).mergeSort (nameLe lc) = []
  exact List.mergeSort_nil

/-- Claim C4 counterexample: from a state with a non-empty Result Set, a
failed byCapital lookup keeps the previous Result Set and raises a blocking
alert, contradicting the claim that the failure is silently mapped to the
empty Result Set. -/
theorem searchFailure_counterexample :
    (searchByCapital lcSample none
        { currentPage := 1, paginatedCountries := [chad] }).1.paginatedCountries = [chad] ∧
    (searchByCapital lcSample none
        { currentPage := 1, paginatedCountries := [chad] }).2 =
      some "No country with that capital!" := by
  decide

/-- Claim C6: for any non-empty query, the suggestions number at most 5, each
has the query as a case-insensitive substring of its common name, they keep
the catalog's relative order, and they form the maximal length-≤-5 prefix of
the catalog's match list (the first 5 matches in catalog order). -/
theorem showSuggestions_matches (input : String) (catalog : List Country)
    (h : input ≠ "") :
    (showSuggestions input catalog).suggestions.length ≤ 5 ∧
    (∀ c ∈ (showSuggestions input catalog).suggestions, matchPred input c = true) ∧
    (showSuggestions input catalog).suggestions.Sublist catalog ∧
    (showSuggestions input catalog).suggestions <+: catalog.filter (matchPred input) ∧
    (showSuggestions input catalog).suggestions.length
      = min 5 (catalog.filter (matchPred input)).length := by
  have hs : (showSuggestions input catalog).suggestions
      = (catalog.filter (matchPred input)).take 5 := by
    simp only [showSuggestions, if_neg h]
    split
    · next hE =>
        exact (List.isEmpty_iff.mp hE).symm
    · rfl
  rw [hs]
  refine ⟨List.length_take_le 5 _, ?_, ?_, ?_, ?_⟩
  · intro c hc
    exact List.of_mem_filter (List.take_subset 5 _ hc)
  · exact (List.take_sublist 5 _).trans (List.filter_sublist catalog)
  · exact ⟨(catalog.filter (matchPred input)).drop 5, List.take_append_drop 5 _⟩
  · exact List.length_take 5 _

/-- Witness for claim C6 on the query "chi" over the three-entity catalog
Chad, Chile, China. -/
theorem showSuggestions_matches_witness :
    ("chi" ≠ "") ∧
    ((showSuggestions "chi" [chad, chile, china]).suggestions.length ≤ 5 ∧
     (∀ c ∈ (showSuggestions "chi" [chad, chile, china]).suggestions,
        matchPred "chi" c = true) ∧
     (showSuggestions "chi" [chad, chile, china]).suggestions.Sublist [chad, chile, china] ∧
     (showSuggestions "chi" [chad, chile, china]).suggestions
       <+: [chad, chile, china].filter (matchPred "chi") ∧
     (showSuggestions "chi" [chad, chile, china]).suggestions.length
       = min 5 ([chad, chile, china].filter (matchPred "chi")).length) :=
  ⟨by decide, showSuggestions_matches "chi" [chad, chile, china] (by decide)⟩

/-- Claim C8: submit with rating 0 raises the missing-rating notice and
changes nothing (no remote call, no timer, draft untouched); submit with a
non-zero rating but a comment blank after trimming raises the missing-comment
notice and likewise changes nothing. -/
theorem submitFeedback_validation (st : FeedbackState) :
    (st.selectedRating = 0 →
      submitFeedback st =
        { state := st, alert := some "Please select a star rating.",
          remoteCall := none, resetDelayMs := none }) ∧
    (st.selectedRating ≠ 0 → jsTrim st.feedbackText = "" →
      submitFeedback st =
        { state := st, alert := some "Please enter your feedback or query.",
          remoteCall := none, resetDelayMs := none }) := by
  constructor
  · intro h0
    simp [submitFeedback, h0]
  · intro h0 hc
    simp [submitFeedback, h0, hc]

/-- Witness for claim C8 at a rating-0 draft and at a rated draft whose
comment is whitespace. -/
theorem submitFeedback_validation_witness :
    (fbNoRating.selectedRating = 0 ∧
      submitFeedback fbNoRating =
        { state := fbNoRating, alert := some "Please select a star rating.",
          remoteCall := none, resetDelayMs := none }) ∧
    (fbNoComment.selectedRating ≠ 0 ∧ jsTrim fbNoComment.feedbackText = "" ∧
      submitFeedback fbNoComment =
        { state := fbNoComment, alert := some "Please enter your feedback or query.",
          remoteCall := none, resetDelayMs := none }) :=
  ⟨⟨by decide, (submitFeedback_validation fbNoRating).1 (by decide)⟩,
   ⟨by decide, by decide, (submitFeedback_validation fbNoComment).2 (by decide) (by decide)⟩⟩

/-- Claim C9: a submit that passes local validation shows the success
acknowledgment with no alert, posts the trimmed draft, and schedules the
reset at exactly 2000 ms; the remote outcome never alters the state; and the
scheduled reset clears the rating to 0, empties the comment and description
texts, deactivates every star, and hides the acknowledgment. -/
theorem submitFeedback_success_flow (st : FeedbackState)
    (h1 : 1 ≤ st.selectedRating) (h5 : st.selectedRating ≤ 5)
    (hc : jsTrim st.feedbackText ≠ "") :
    (submitFeedback st).alert = none ∧
    (submitFeedback st).state.successVisible = true ∧
    (submitFeedback st).remoteCall = some (st.selectedRating, jsTrim st.feedbackText) ∧
    (submitFeedback st).resetDelayMs = some 2000 ∧
    (∀ (ok : Bool) (s : FeedbackState), feedbackFetchHandler ok s = s) ∧
    (feedbackResetCallback (submitFeedback st).state).selectedRating = 0 ∧
    (feedbackResetCallback (submitFeedback st).state).feedbackText = "" ∧
    (feedbackResetCallback (submitFeedback st).state).ratingText = "" ∧
    (∀ b ∈ (feedbackResetCallback (submitFeedback st).state).starsActive, b = false) ∧
    (feedbackResetCallback (submitFeedback st).state).successVisible = false := by
  have h0 : ¬ st.selectedRating = 0 := by omega
  simp [submitFeedback, feedbackResetCallback, feedbackFetchHandler, h0, hc]

/-- Witness for claim C9 at the rated draft with comment "great". -/
theorem submitFeedback_success_flow_witness :
    (1 ≤ fbReady.selectedRating ∧ fbReady.selectedRating ≤ 5 ∧
      jsTrim fbReady.feedbackText ≠ "") ∧
    ((submitFeedback fbReady).alert = none ∧
     (submitFeedback fbReady).state.successVisible = true ∧
     (submitFeedback fbReady).remoteCall = some (fbReady.selectedRating, jsTrim fbReady.feedbackText) ∧
     (submitFeedback fbReady).resetDelayMs = some 2000 ∧
     (∀ (ok : Bool) (s : FeedbackState), feedbackFetchHandler ok s = s) ∧
     (feedbackResetCallback (submitFeedback fbReady).state).selectedRating = 0 ∧
     (feedbackResetCallback (submitFeedback fbReady).state).feedbackText = "" ∧
     (feedbackResetCallback (submitFeedback fbReady).state).ratingText = "" ∧
     (∀ b ∈ (feedbackResetCallback (submitFeedback fbReady).state).starsActive, b = false) ∧
     (feedbackResetCallback (submitFeedback fbReady).state).successVisible = false) :=
  ⟨⟨by decide, by decide, by decide⟩,
   submitFeedback_success_flow fbReady (by decide) (by decide) (by decide)⟩
